import Mathlib

/-
Verification of the MCP server core (ghbountybot/mcp).

This file shallowly embeds the parts of the Rust source that the verified
claims are about:

* the JSON-RPC wire structs and their serde encoding/decoding
  (src/mcp/src/rpc.rs), including the untagged JsonRpcMessage enum;
* the HTTP message handler McpImpl::message_handler (src/mcp/src/rpc.rs);
* the generic handler registry and its typed-adapter wrapper
  (src/mcp/src/registry/mod.rs), the tool registry
  (src/mcp/src/registry/tool.rs), the prompt registry
  (src/mcp/src/registry/prompt.rs) and the resource registry
  (src/mcp/src/registry/resource.rs);
* the duplicate tool registry of the builder layer
  (src/mcp/src/builder/registry.rs);
* the service facade BasicService (src/mcp/src/basic_service.rs), together
  with a small operational model of the tokio tasks it spawns for resource
  subscriptions.

Rust `Result<T, Error>` values together with the possibility of a panic
(`todo!()`, `expect`, `unwrap`) are modelled by the `Outcome` type below.
Machine integers that occur (i32 error codes, i32 request ids) stay far from
any overflow in every claim, so they are modelled as `Int`.
-/

namespace McpVerify

/-- Rust struct `Error { message: String, code: i32 }` (src/mcp/src/error.rs and
the copy in src/mcp/src/lib.rs). -/
structure Error where
  message : String
  code : Int
deriving DecidableEq, Repr

/-- Result of running a piece of Rust code: a success value, an `Err` value of
the crate's `Error` type, or a panic with the panic message.  `todo!()` panics
with the message "not yet implemented"; `expect("m")` on `None` panics with
"m". -/
inductive Outcome (α : Type) where
  | ok (value : α)
  | err (e : Error)
  | panic (msg : String)

/-- `serde_json::Value`, with numbers restricted to integers (the only numbers
the embedded structs carry are i32 ids and codes). -/
inductive Json where
  | null
  | bool (b : Bool)
  | num (n : Int)
  | str (s : String)
  | arr (items : List Json)
  | obj (fields : List (String × Json))

/-- Key lookup in an association list; models both JSON-object field access and
`HashMap::get` (first binding wins; maps are kept with unique keys). -/
def lookupAssoc {α : Type} (xs : List (String × α)) (k : String) : Option α :=
  (xs.find? (fun p => p.1 == k)).map (fun p => p.2)

/-- Field access on a JSON object value, `none` on other values. -/
def Json.getObjField : Json → String → Option Json
  | .obj fields, k => lookupAssoc fields k
  | _, _ => none

/- ===== Wire structs of src/mcp/src/rpc.rs (lines 165-323) ===== -/

/-- `JsonRpcRequest { jsonrpc: String, id: Option<i32>, method: String,
params: Option<Value> }`. -/
structure JsonRpcRequest where
  jsonrpc : String
  id : Option Int
  method : String
  params : Option Json

/-- `JsonRpcError { code: i32, message: String, data: Option<Value> }`;
`data` is skipped on serialization when `None`. -/
structure JsonRpcError where
  code : Int
  message : String
  data : Option Json

/-- `JsonRpcResponse { jsonrpc, id: Option<i32>, result: Option<Value>,
error: Option<JsonRpcError> }`; `result` and `error` are skipped on
serialization when `None`. -/
structure JsonRpcResponse where
  jsonrpc : String
  id : Option Int
  result : Option Json
  error : Option JsonRpcError

/-- `JsonRpcNotification { jsonrpc, method, params: Option<Value> }`. -/
structure JsonRpcNotification where
  jsonrpc : String
  method : String
  params : Option Json

/-- `#[serde(untagged)] enum JsonRpcMessage { Request, Response,
Notification }` (src/mcp/src/rpc.rs lines 312-323). -/
inductive JsonRpcMessage where
  | request (r : JsonRpcRequest)
  | response (r : JsonRpcResponse)
  | notification (n : JsonRpcNotification)

/- ===== serde serialization of the wire structs =====
An `Option` field without a skip attribute serializes `None` as JSON null;
a field with `skip_serializing_if = "Option::is_none"` is omitted when
`None`. -/

def encodeOptInt : Option Int → Json
  | none => .null
  | some n => .num n

def encodeOptJson : Option Json → Json
  | none => .null
  | some v => v

def encodeError (e : JsonRpcError) : Json :=
  .obj ([("code", .num e.code), ("message", .str e.message)] ++
    (match e.data with
     | none => []
     | some v => [("data", v)]))

def encodeRequest (r : JsonRpcRequest) : Json :=
  .obj [("jsonrpc", .str r.jsonrpc), ("id", encodeOptInt r.id),
        ("method", .str r.method), ("params", encodeOptJson r.params)]

def encodeResponse (r : JsonRpcResponse) : Json :=
  .obj ([("jsonrpc", .str r.jsonrpc), ("id", encodeOptInt r.id)] ++
    (match r.result with
     | none => []
     | some v => [("result", v)]) ++
    (match r.error with
     | none => []
     | some e => [("error", encodeError e)]))

def encodeNotification (n : JsonRpcNotification) : Json :=
  .obj [("jsonrpc", .str n.jsonrpc), ("method", .str n.method),
        ("params", encodeOptJson n.params)]

def encodeMessage : JsonRpcMessage → Json
  | .request r => encodeRequest r
  | .response r => encodeResponse r
  | .notification n => encodeNotification n

/- ===== serde deserialization of the wire structs =====
A required `String` field fails unless present and a JSON string; an
`Option<i32>` field is `None` when missing or null, `Some` on an integer and
fails otherwise; an `Option<Value>` field is `None` when missing or null and
otherwise keeps the value; unknown fields are ignored (serde default). -/

def decodeStrField (fields : List (String × Json)) (k : String) : Option String :=
  match lookupAssoc fields k with
  | some (.str s) => some s
  | _ => none

def decodeOptIntField (fields : List (String × Json)) (k : String) :
    Option (Option Int) :=
  match lookupAssoc fields k with
  | none => some none
  | some .null => some none
  | some (.num n) => some (some n)
  | some _ => none

def decodeOptJsonField (fields : List (String × Json)) (k : String) : Option Json :=
  match lookupAssoc fields k with
  | none => none
  | some .null => none
  | some v => some v

def decodeRequest (j : Json) : Option JsonRpcRequest :=
  match j with
  | .obj fields =>
    match decodeStrField fields "jsonrpc", decodeOptIntField fields "id",
          decodeStrField fields "method" with
    | some v, some i, some m => some ⟨v, i, m, decodeOptJsonField fields "params"⟩
    | _, _, _ => none
  | _ => none

def decodeError (j : Json) : Option JsonRpcError :=
  match j with
  | .obj fields =>
    match lookupAssoc fields "code", decodeStrField fields "message" with
    | some (.num c), some m => some ⟨c, m, decodeOptJsonField fields "data"⟩
    | _, _ => none
  | _ => none

def decodeOptErrField (fields : List (String × Json)) (k : String) :
    Option (Option JsonRpcError) :=
  match lookupAssoc fields k with
  | none => some none
  | some .null => some none
  | some v => (decodeError v).map some

def decodeResponse (j : Json) : Option JsonRpcResponse :=
  match j with
  | .obj fields =>
    match decodeStrField fields "jsonrpc", decodeOptIntField fields "id",
          decodeOptErrField fields "error" with
    | some v, some i, some e =>
      some ⟨v, i, decodeOptJsonField fields "result", e⟩
    | _, _, _ => none
  | _ => none

def decodeNotification (j : Json) : Option JsonRpcNotification :=
  match j with
  | .obj fields =>
    match decodeStrField fields "jsonrpc", decodeStrField fields "method" with
    | some v, some m => some ⟨v, m, decodeOptJsonField fields "params"⟩
    | _, _ => none
  | _ => none

/-- Deserialization of the untagged enum: serde tries the variants in
declaration order (Request, then Response, then Notification) and returns the
first success. -/
def decodeMessage (j : Json) : Option JsonRpcMessage :=
  match decodeRequest j with
  | some r => some (.request r)
  | none =>
    match decodeResponse j with
    | some r => some (.response r)
    | none =>
      match decodeNotification j with
      | some n => some (.notification n)
      | none => none

/- ===== mcp_schema types (external crate; only the fields the embedded code
constructs or reads are modelled; the permanently-empty `meta`/`extra` maps
are omitted) ===== -/

namespace mcp_schema

/-- Protocol version constant advertised by the server
(`mcp_schema::LATEST_PROTOCOL_VERSION`). -/
def LATEST_PROTOCOL_VERSION : String := "2024-11-05"

structure Implementation where
  name : String
  version : String
deriving DecidableEq

structure PromptsCapability where
  list_changed : Option Bool
deriving DecidableEq

structure ResourcesCapability where
  subscribe : Option Bool
  list_changed : Option Bool
deriving DecidableEq

structure ToolsCapability where
  list_changed : Option Bool
deriving DecidableEq

structure ServerCapabilities where
  experimental : Option Json
  logging : Option Json
  prompts : Option PromptsCapability
  resources : Option ResourcesCapability
  tools : Option ToolsCapability

structure InitializeResult where
  capabilities : ServerCapabilities
  instructions : Option String
  protocol_version : String
  server_info : Implementation

structure EmptyResult

/-- `mcp_schema::Tool { name, description: Option<String>, input_schema }`. -/
structure Tool where
  name : String
  description : Option String
  input_schema : Json

structure ListToolsResult where
  tools : List Tool

structure CallToolParams where
  name : String
  arguments : Option (List (String × Json))

/-- `CallToolResult { content, is_error }`; content items are kept abstract as
JSON values. -/
structure CallToolResult where
  content : List Json
  is_error : Option Bool

structure GetPromptParams where
  name : String
  arguments : Option (List (String × String))

structure GetPromptResult where
  description : Option String
  messages : List Json

structure ReadResourceParams where
  uri : String

/-- Resource contents as returned by a source; only the uri matters to the
claims. -/
structure ResourceContents where
  uri : String

structure ReadResourceResult where
  contents : List ResourceContents

structure SubscribeParams where
  uri : String

structure UnsubscribeParams where
  uri : String

structure SetLevelParams where
  level : String

end mcp_schema

/- ===== Generic handler registry (src/mcp/src/registry/mod.rs) ===== -/

/-- `HandlerArgs = HashMap<String, serde_json::Value>`, as an association
list with unique keys. -/
def HandlerArgs := List (String × Json)

/-- `HandlerRegistry<Handler> { handlers: HashMap<String, Handler> }`. -/
structure HandlerRegistry (Handler : Type) where
  handlers : List (String × Handler)

/-- `HandlerRegistry::call` (src/mcp/src/registry/mod.rs lines 96-117): look
the handler up by name; when absent, fail with code 404 and message
`Handler '<name>' not found`; otherwise run it.  The `run` argument stands for
the `HandlerFn::run` method of the stored handler type. -/
def HandlerRegistry.call {Handler State O : Type} (reg : HandlerRegistry Handler)
    (run : Handler → State → HandlerArgs → Outcome O)
    (state : State) (name : String) (args : HandlerArgs) : Outcome O :=
  match lookupAssoc reg.handlers name with
  | none => .err ⟨"Handler \x27" ++ name ++ "\x27 not found", 404⟩
  | some h => run h state args

/-- `WrappedAsyncFn::run` (src/mcp/src/registry/mod.rs lines 59-82): first
deserialize the raw JSON argument object into the handler's input type `I`;
on failure return the 400 error without ever calling the user handler; on
success call the user handler.  `deserialize` stands for
`serde_json::from_value` at type `I` and returns the serde error message on
failure. -/
def WrappedAsyncFn.run {State I O : Type}
    (deserialize : HandlerArgs → Except String I)
    (handler : State → I → Outcome O)
    (state : State) (args : HandlerArgs) : Outcome O :=
  match deserialize args with
  | .error e => .err ⟨"Failed to deserialize arguments: " ++ e, 400⟩
  | .ok input => handler state input

/-- The duplicate adapter `impl HandlerFn<State, I, O> for F` in
src/mcp/src/builder/registry.rs (lines 27-63): it maps the deserialization
error to the same 400 `Error` value but then calls `.unwrap()` on the result,
so a failing deserialization panics instead of returning the error.  The
success continuation (calling the user handler and wrapping its serialized
output into a text content item) is abstracted into `handler`.  The panic
message of `Result::unwrap` formats the 400 error value via its Debug
instance; it is rendered here without the Debug punctuation. -/
def builderHandlerRun {State I O : Type}
    (deserialize : HandlerArgs → Except String I)
    (handler : State → I → Outcome O)
    (state : State) (args : HandlerArgs) : Outcome O :=
  match deserialize args with
  | .error e =>
    .panic ("called Result.unwrap on an Err value: Error: Failed to deserialize arguments: "
      ++ e ++ ", code: 400")
  | .ok input => handler state input

/- ===== Tool registry (src/mcp/src/registry/tool.rs) ===== -/

/-- `Tool<State> { name, schema, handler }`; the boxed handler chain
(`ToolHandler` wrapping, serialization of the output, wrapping into a
`CallToolResult` with `is_error = false`) is collapsed into the `run`
field. -/
structure Tool (State : Type) where
  name : String
  schema : Json
  run : State → HandlerArgs → Outcome mcp_schema.CallToolResult

/-- `ToolRegistry<State> { registry: HandlerRegistry<Tool<State>> }`.  The
underlying `HashMap` iterates in arbitrary order; the model keeps the
registration order in a list, which never becomes observable because
projection to `mcp_schema::Tool` panics (see `toolTryFrom`). -/
structure ToolRegistry (State : Type) where
  registry : HandlerRegistry (Tool State)

/-- `TryFrom<&Tool<State>> for mcp_schema::Tool`
(src/mcp/src/registry/tool.rs lines 133-144).  The struct literal evaluates
its fields in source order and the first field is `description: todo!()`, so
the conversion panics with the standard `todo!()` message before the schema
is even read. -/
def toolTryFrom {State : Type} (_tool : Tool State) : Outcome mcp_schema.Tool :=
  .panic "not yet implemented"

/-- `collect::<Result<Vec<_>, _>>()` over already-computed element outcomes:
the first non-ok element outcome aborts the collection. -/
def collectOutcomes {α : Type} : List (Outcome α) → Outcome (List α)
  | [] => .ok []
  | o :: rest =>
    match o with
    | .ok v =>
      match collectOutcomes rest with
      | .ok vs => .ok (v :: vs)
      | .err e => .err e
      | .panic m => .panic m
    | .err e => .err e
    | .panic m => .panic m

/-- `BasicService::list_tools` (src/mcp/src/basic_service.rs lines 334-352):
map every registered tool through `TryFrom` and collect into a
`ListToolsResult`. -/
def ToolRegistry.list_tools {State : Type} (reg : ToolRegistry State) :
    Outcome mcp_schema.ListToolsResult :=
  match collectOutcomes (reg.registry.handlers.map (fun p => toolTryFrom p.2)) with
  | .ok tools => .ok ⟨tools⟩
  | .err e => .err e
  | .panic m => .panic m

/-- `ToolRegistry::call_tool` (src/mcp/src/registry/tool.rs lines 47-59):
delegate to `HandlerRegistry::call` with `arguments.unwrap_or_default()`. -/
def ToolRegistry.call_tool {State : Type} (reg : ToolRegistry State)
    (state : State) (request : mcp_schema.CallToolParams) :
    Outcome mcp_schema.CallToolResult :=
  reg.registry.call (fun t s a => t.run s a) state request.name
    (request.arguments.getD [])

/- ===== Builder-layer tool registry (src/mcp/src/builder/registry.rs) ===== -/

/-- `Tool<State>` of the builder layer (src/mcp/src/builder.rs): name, cached
schema and the boxed handler closure. -/
structure BuilderTool (State : Type) where
  name : String
  schema : Json
  run : State → HandlerArgs → Outcome mcp_schema.CallToolResult

/-- `ToolRegistry<State> { tools: HashMap<String, Tool<State>>, state }` of
src/mcp/src/builder/registry.rs. -/
structure BuilderToolRegistry (State : Type) where
  tools : List (String × BuilderTool State)

/-- `CallToolRequest.params` of the builder layer: name and arguments. -/
structure BuilderCallToolRequest where
  name : String
  arguments : HandlerArgs

/-- `ToolRegistry::call_tool` (src/mcp/src/builder/registry.rs lines
115-126): look the tool up by name; when absent, fail with code 404 and
message `Tool '<name>' not found`; otherwise run its handler. -/
def BuilderToolRegistry.call_tool {State : Type} (reg : BuilderToolRegistry State)
    (state : State) (request : BuilderCallToolRequest) :
    Outcome mcp_schema.CallToolResult :=
  match lookupAssoc reg.tools request.name with
  | none => .err ⟨"Tool \x27" ++ request.name ++ "\x27 not found", 404⟩
  | some t => t.run state request.arguments

/- ===== Prompt registry (src/mcp/src/registry/prompt.rs) ===== -/

/-- `Prompt<State> { name, description, schema, handler }`; the handler chain
is collapsed into `run` as for tools. -/
structure Prompt (State : Type) where
  name : String
  description : String
  schema : Json
  run : State → HandlerArgs → Outcome mcp_schema.GetPromptResult

structure PromptRegistry (State : Type) where
  registry : HandlerRegistry (Prompt State)

/-- `PromptRegistry::get_prompt` (src/mcp/src/registry/prompt.rs lines
49-65): convert the string-to-string argument map into a JSON object of
string values and dispatch through `HandlerRegistry::call`. -/
def PromptRegistry.get_prompt {State : Type} (reg : PromptRegistry State)
    (state : State) (request : mcp_schema.GetPromptParams) :
    Outcome mcp_schema.GetPromptResult :=
  reg.registry.call (fun p s a => p.run s a) state request.name
    ((request.arguments.getD []).map (fun kv => (kv.1, Json.str kv.2)))

/- ===== Resource registry (src/mcp/src/registry/resource.rs) ===== -/

/-- `dyn ErasedSource<State>`: the claims only exercise `read_erased`; the
`wait_for_change_erased` future is never awaited inside any verified
property, so only its existence is kept. -/
structure ErasedSource (State : Type) where
  read : State → String → Outcome (List mcp_schema.ResourceContents)

/-- `Resource<State, FixedResourceUri>` restricted to the fields lookup
uses. -/
structure FixedResource (State : Type) where
  uri : String
  source : ErasedSource State

/-- `Resource<State, TemplateResourceUri>` restricted to the fields lookup
uses. -/
structure TemplateResource (State : Type) where
  uri : String
  source : ErasedSource State

/-- `ResourceRegistry<State> { fixed_resources: HashMap<String, _>,
template_resources: Vec<_> }`. -/
structure ResourceRegistry (State : Type) where
  fixed_resources : List (String × FixedResource State)
  template_resources : List (TemplateResource State)

/-- `fn template_uri_matches(template, uri) -> bool { todo!() }`
(src/mcp/src/registry/resource.rs lines 9-11): the body is `todo!()`, which
panics with "not yet implemented" whenever it is called. -/
def template_uri_matches (_template _uri : String) : Outcome Bool :=
  .panic "not yet implemented"

/-- `self.template_resources.iter().find(|r| template_uri_matches(..))`: the
predicate runs on each element in order, so any panic inside it propagates. -/
def findTemplateSource {State : Type} :
    List (TemplateResource State) → String → Outcome (Option (ErasedSource State))
  | [], _ => .ok none
  | r :: rest, uri =>
    match template_uri_matches r.uri uri with
    | .ok true => .ok (some r.source)
    | .ok false => findTemplateSource rest uri
    | .err e => .err e
    | .panic m => .panic m

/-- `ResourceRegistry::get_source` (src/mcp/src/registry/resource.rs lines
42-59): exact match among fixed resources first, then the first matching
template, otherwise the 404 error `Resource at uri '<uri>' not found`. -/
def ResourceRegistry.get_source {State : Type} (reg : ResourceRegistry State)
    (uri : String) : Outcome (ErasedSource State) :=
  match lookupAssoc reg.fixed_resources uri with
  | some r => .ok r.source
  | none =>
    match findTemplateSource reg.template_resources uri with
    | .ok (some src) => .ok src
    | .ok none => .err ⟨"Resource at uri \x27" ++ uri ++ "\x27 not found", 404⟩
    | .err e => .err e
    | .panic m => .panic m

/-- `ResourceRegistry::read_resource` (src/mcp/src/registry/resource.rs lines
66-84): resolve the source, read it, wrap the contents. -/
def ResourceRegistry.read_resource {State : Type} (reg : ResourceRegistry State)
    (state : State) (uri : String) : Outcome mcp_schema.ReadResourceResult :=
  match reg.get_source uri with
  | .ok src =>
    match src.read state uri with
    | .ok contents => .ok ⟨contents⟩
    | .err e => .err e
    | .panic m => .panic m
  | .err e => .err e
  | .panic m => .panic m

/- ===== Service facade BasicService (src/mcp/src/basic_service.rs) ===== -/

/-- `BasicService<State>` (src/mcp/src/basic_service.rs lines 9-22).  The
notification handler is an `Option<Arc<dyn Fn(ServerNotification)>>`; the
claims only depend on whether it is set, so the function itself is modelled
as `Unit`.  The `resource_subscriptions` map lives in the task model below
(`SubscriptionTasks`), since its contents evolve together with the spawned
tokio tasks. -/
structure BasicService (State : Type) where
  state : Option State
  name : String
  version : String
  instructions : Option String
  tool_registry : ToolRegistry State
  prompt_registry : PromptRegistry State
  resource_registry : ResourceRegistry State
  notification_handler : Option Unit

/-- `BasicService::new` (src/mcp/src/basic_service.rs lines 34-46). -/
def BasicService.new (State : Type) : BasicService State :=
  { state := none
    name := "unnamed"
    version := "0.1.0"
    instructions := none
    tool_registry := ⟨⟨[]⟩⟩
    prompt_registry := ⟨⟨[]⟩⟩
    resource_registry := ⟨[], []⟩
    notification_handler := none }

/-- `BasicService::init` (src/mcp/src/basic_service.rs lines 120-152):
always succeeds with the fixed capability record, the configured
instructions, the supported protocol version and the configured server
info. -/
def BasicService.init {State : Type} (svc : BasicService State)
    : Outcome mcp_schema.InitializeResult :=
  .ok
    { capabilities :=
        { experimental := none
          logging := none
          prompts := some ⟨some false⟩
          resources := some ⟨some true, some false⟩
          tools := some ⟨some false⟩ }
      instructions := svc.instructions
      protocol_version := mcp_schema.LATEST_PROTOCOL_VERSION
      server_info := ⟨svc.name, svc.version⟩ }

/-- `BasicService::read_resource` (src/mcp/src/basic_service.rs lines
222-228): `self.state.clone().expect("state must be set")` panics when the
state was never set; otherwise the resource registry handles the request. -/
def BasicService.read_resource {State : Type} (svc : BasicService State)
    (request : mcp_schema.ReadResourceParams) : Outcome mcp_schema.ReadResourceResult :=
  match svc.state with
  | none => .panic "state must be set"
  | some st => svc.resource_registry.read_resource st request.uri

/-- `BasicService::call_tool` (src/mcp/src/basic_service.rs lines 354-360):
same `expect` on the state, then the tool registry handles the request. -/
def BasicService.call_tool {State : Type} (svc : BasicService State)
    (request : mcp_schema.CallToolParams) : Outcome mcp_schema.CallToolResult :=
  match svc.state with
  | none => .panic "state must be set"
  | some st => svc.tool_registry.call_tool st request

/-- `BasicService::get_prompt` (src/mcp/src/basic_service.rs lines 326-332):
same `expect` on the state, then the prompt registry handles the request. -/
def BasicService.get_prompt {State : Type} (svc : BasicService State)
    (request : mcp_schema.GetPromptParams) : Outcome mcp_schema.GetPromptResult :=
  match svc.state with
  | none => .panic "state must be set"
  | some st => svc.prompt_registry.get_prompt st request

/-- `BasicService::set_level` (src/mcp/src/basic_service.rs lines 362-367):
the body is `async move { todo!() }`, so every setLevel request panics with
the standard `todo!()` message instead of producing a `Result`. -/
def BasicService.set_level {State : Type} (_svc : BasicService State)
    (_request : mcp_schema.SetLevelParams) : Outcome mcp_schema.EmptyResult :=
  .panic "not yet implemented"

/- ===== Operational model of the subscription tasks =====

`subscribe` spawns a tokio watcher task per call and stores its `JoinHandle`
in the `resource_subscriptions` map.  `HashMap::insert` returns the handle it
displaces, which `subscribe` drops; dropping a tokio `JoinHandle` detaches
the task (it keeps running) rather than aborting it.  `unsubscribe` removes
the handle and calls `.abort()` on it explicitly.  The model records every
spawned watcher, which ones have been aborted, and the current map. -/

/-- Bookkeeping for the spawned watcher tasks of one service instance:
`nextId` is the next fresh task id, `watchers` lists every watcher task ever
spawned with the uri it watches, `aborted` lists the task ids whose
`JoinHandle::abort` was called, and `subs` is the
`resource_subscriptions` map. -/
structure SubscriptionTasks where
  nextId : Nat
  watchers : List (Nat × String)
  aborted : List Nat
  subs : List (String × Nat)

def SubscriptionTasks.empty : SubscriptionTasks := ⟨0, [], [], []⟩

/-- `HashMap::insert`: replace the binding for the key, keeping keys
unique. -/
def insertAssoc {α : Type} : List (String × α) → String → α → List (String × α)
  | [], k, v => [(k, v)]
  | (k0, v0) :: rest, k, v =>
    if k0 == k then (k, v) :: rest else (k0, v0) :: insertAssoc rest k v

/-- `HashMap::remove`: drop the binding for the key. -/
def removeAssoc {α : Type} : List (String × α) → String → List (String × α)
  | [], _ => []
  | (k0, v0) :: rest, k =>
    if k0 == k then rest else (k0, v0) :: removeAssoc rest k

/-- Number of watcher tasks for `uri` that are still running (spawned and
never aborted). -/
def SubscriptionTasks.aliveWatchersFor (tasks : SubscriptionTasks) (uri : String) : Nat :=
  (tasks.watchers.filter (fun w => w.2 == uri && !(tasks.aborted.contains w.1))).length

/-- `BasicService::subscribe` (src/mcp/src/basic_service.rs lines 230-279).
In source order: `expect` the notification handler ("service notification
handler must be set"), `expect` the state ("state must be set"), resolve the
source.  On success, spawn the watcher task and `insert` its handle into the
map; the displaced handle, if any, is dropped without `abort`, so the model
leaves `aborted` unchanged.  On lookup failure the error is returned and
nothing is spawned. -/
def BasicService.subscribe {State : Type} (svc : BasicService State)
    (tasks : SubscriptionTasks) (request : mcp_schema.SubscribeParams) :
    Outcome mcp_schema.EmptyResult × SubscriptionTasks :=
  match svc.notification_handler with
  | none => (.panic "service notification handler must be set", tasks)
  | some _ =>
    match svc.state with
    | none => (.panic "state must be set", tasks)
    | some _ =>
      match svc.resource_registry.get_source request.uri with
      | .ok _ =>
        (.ok ⟨⟩,
          { nextId := tasks.nextId + 1
            watchers := tasks.watchers ++ [(tasks.nextId, request.uri)]
            aborted := tasks.aborted
            subs := insertAssoc tasks.subs request.uri tasks.nextId })
      | .err e => (.err e, tasks)
      | .panic m => (.panic m, tasks)

/-- `BasicService::unsubscribe` (src/mcp/src/basic_service.rs lines
281-301): remove the map entry; when one was present, `abort` its task;
always succeed with the empty result. -/
def BasicService.unsubscribe (tasks : SubscriptionTasks)
    (request : mcp_schema.UnsubscribeParams) :
    Outcome mcp_schema.EmptyResult × SubscriptionTasks :=
  match lookupAssoc tasks.subs request.uri with
  | some taskId =>
    (.ok ⟨⟩,
      { tasks with
          subs := removeAssoc tasks.subs request.uri
          aborted := tasks.aborted ++ [taskId] })
  | none => (.ok ⟨⟩, tasks)

/- ===== HTTP message handler (src/mcp/src/rpc.rs lines 424-516) ===== -/

/-- The JSON literal returned by the `initialize` arm of
`McpImpl::message_handler` (src/mcp/src/rpc.rs lines 432-448): hardcoded
server info and a capability object containing only `tools`. -/
def initializeResultJson : Json :=
  .obj
    [("serverInfo", .obj [("name", .str "mcp-weather"), ("version", .str "0.1.0")]),
     ("protocolVersion", .str "2024-11-05"),
     ("capabilities", .obj [("tools", .obj [("listChanged", .bool false)])])]

/-- The JSON literal returned by the `tools/list` arm of
`McpImpl::message_handler` (src/mcp/src/rpc.rs lines 449-489): two hardcoded
weather tools. -/
def toolsListResultJson : Json :=
  .obj
    [("tools", .arr
      [.obj
        [("name", .str "get_alerts"),
         ("description", .str "Get weather alerts for a US state"),
         ("inputSchema", .obj
           [("type", .str "object"),
            ("properties", .obj
              [("state", .obj
                [("type", .str "string"),
                 ("description", .str "Two-letter US state code (e.g. CA, NY)")])]),
            ("required", .arr [.str "state"])])],
       .obj
        [("name", .str "get_forecast"),
         ("description", .str "Get weather forecast for a location"),
         ("inputSchema", .obj
           [("type", .str "object"),
            ("properties", .obj
              [("latitude", .obj
                [("type", .str "number"),
                 ("description", .str "Latitude of the location")]),
               ("longitude", .obj
                [("type", .str "number"),
                 ("description", .str "Longitude of the location")])]),
            ("required", .arr [.str "latitude", .str "longitude"])])]])]

/-- `McpImpl::message_handler` (src/mcp/src/rpc.rs lines 424-516), without
the broadcast side channel: match on the method string only — the `jsonrpc`
field of the request is never inspected.  `initialize` and `tools/list` get
the hardcoded results; any other method is dispatched to the registered
handler when one exists (with `params.unwrap_or(Null)`), and otherwise gets
the -32601 error with the request id echoed. -/
def McpImpl.message_handler (handlers : List (String × (Json → JsonRpcResponse)))
    (request : JsonRpcRequest) : JsonRpcResponse :=
  if request.method == "initialize" then
    { jsonrpc := "2.0", id := request.id, result := some initializeResultJson,
      error := none }
  else if request.method == "tools/list" then
    { jsonrpc := "2.0", id := request.id, result := some toolsListResultJson,
      error := none }
  else
    match lookupAssoc handlers request.method with
    | some h => h (request.params.getD .null)
    | none =>
      { jsonrpc := "2.0", id := request.id, result := none,
        error := some ⟨-32601, "Method not found: " ++ request.method, none⟩ }

/- ===== Concrete fixtures used by the closed theorems and witnesses ===== -/

/-- A source whose read always succeeds with no contents. -/
def unitSource : ErasedSource Unit := ⟨fun _ _ => .ok []⟩

/-- A registry with one fixed resource at uri `memo` and no templates. -/
def exampleResources : ResourceRegistry Unit :=
  ⟨[("memo", ⟨"memo", unitSource⟩)], []⟩

/-- A registry with no fixed resources and one registered template. -/
def templateOnlyResources : ResourceRegistry Unit :=
  ⟨[], [⟨"res://T", unitSource⟩]⟩

/-- A tool whose handler always succeeds with an empty content list. -/
def exampleTool : Tool Unit := ⟨"echo", .obj [], fun _ _ => .ok ⟨[], some false⟩⟩

/-- A tool registry holding the single tool `echo`. -/
def exampleTools : ToolRegistry Unit := ⟨⟨[("echo", exampleTool)]⟩⟩

/-- An empty builder-layer tool registry. -/
def emptyBuilderTools : BuilderToolRegistry Unit := ⟨[]⟩

/-- A fully configured service: state set, notification handler installed,
one tool and one fixed resource registered. -/
def exampleService : BasicService Unit :=
  { state := some ()
    name := "svc"
    version := "1.2.3"
    instructions := none
    tool_registry := exampleTools
    prompt_registry := ⟨⟨[]⟩⟩
    resource_registry := exampleResources
    notification_handler := some () }

/-- `BasicService::new()`: no state, no notification handler. -/
def bareService : BasicService Unit := BasicService.new Unit

/-- A service with a notification handler installed but still no state. -/
def statelessService : BasicService Unit :=
  { bareService with
      notification_handler := some ()
      resource_registry := exampleResources }

/-- A deserializer that always fails, standing for `serde_json::from_value`
on an argument object missing a required field. -/
def failingDeserialize : HandlerArgs → Except String Unit :=
  fun _ => .error "missing field message"

/- ===== Claims ===== -/

/-- C1: every setLevel request is supposed to fail with code 501
"not implemented" without crashing the server, but `BasicService::set_level`
is `async move { todo!() }`, so it panics with "not yet implemented" instead
of returning any error value.  This theorem evaluates the embedded code: the
outcome is a panic, not an `Err`. -/
theorem c1_set_level_panics {State : Type} (svc : BasicService State)
    (request : mcp_schema.SetLevelParams) :
    svc.set_level request = .panic "not yet implemented" := rfl

/-- C2: subscribing an already-subscribed URI is supposed to cancel the prior
watcher and leave exactly one watcher task.  In the code, `HashMap::insert`
replaces the map entry but the displaced `JoinHandle` is dropped without
`abort`, which detaches the old tokio task.  Evaluating the model: after two
subscribes to `memo`, the map has the single entry for the new task, no task
was ever aborted, and two watcher tasks for `memo` are still running. -/
theorem c2_double_subscribe_two_watchers :
    ((exampleService.subscribe
        ((exampleService.subscribe SubscriptionTasks.empty ⟨"memo"⟩).2)
        ⟨"memo"⟩).2).aliveWatchersFor "memo" = 2 ∧
    ((exampleService.subscribe
        ((exampleService.subscribe SubscriptionTasks.empty ⟨"memo"⟩).2)
        ⟨"memo"⟩).2).subs = [("memo", 1)] ∧
    ((exampleService.subscribe
        ((exampleService.subscribe SubscriptionTasks.empty ⟨"memo"⟩).2)
        ⟨"memo"⟩).2).aborted = [] :=
  ⟨rfl, rfl, rfl⟩

/-- C3: listTools is supposed to succeed on any non-empty registry and return
the projected tools, but the projection `TryFrom<&Tool> for mcp_schema::Tool`
has `description: todo!()`, so listing any non-empty registry panics with
"not yet implemented"; only the empty registry succeeds (with no tools). -/
theorem c3_list_tools_panics :
    exampleTools.list_tools = .panic "not yet implemented" ∧
    (⟨⟨[]⟩⟩ : ToolRegistry Unit).list_tools = .ok ⟨[]⟩ :=
  ⟨rfl, rfl⟩

/-- C4: resource lookup for a URI with no fixed match is supposed to return
error 404 whether or not templates are registered (and `get_source`'s own doc
comment says it "will error").  Evaluating the embedded code: with no
templates the 404 error is indeed returned, but with a template registered
the lookup calls the `todo!()` stub `template_uri_matches` and panics. -/
theorem c4_get_source_unknown_uri :
    exampleResources.get_source "nope" =
      .err ⟨"Resource at uri \x27nope\x27 not found", 404⟩ ∧
    templateOnlyResources.get_source "nope" = .panic "not yet implemented" :=
  ⟨rfl, rfl⟩

/-- C5 counterexample: a callTool request for the unknown name `nope`,
dispatched through the service facade's tool registry, produces the 404 error
with message `Handler 'nope' not found` — not the message
`Tool 'nope' not found` the claim states. -/
theorem c5_counterexample :
    exampleService.call_tool ⟨"nope", none⟩ =
      .err ⟨"Handler \x27nope\x27 not found", 404⟩ ∧
    ("Handler \x27nope\x27 not found" : String) ≠ "Tool \x27nope\x27 not found" := by
  refine ⟨rfl, by decide⟩

/-- C5 amended: calling an unknown tool name fails with code 404 in both
registries, but the wording differs: the service facade's registry
(`HandlerRegistry::call`) says `Handler '<name>' not found`, while the
builder-layer `ToolRegistry::call_tool` says `Tool '<name>' not found`. -/
theorem c5_call_tool_not_found {State : Type} (reg : ToolRegistry State)
    (breg : BuilderToolRegistry State) (st : State) (name : String)
    (args : HandlerArgs)
    (h1 : lookupAssoc reg.registry.handlers name = none)
    (h2 : lookupAssoc breg.tools name = none) :
    reg.call_tool st ⟨name, some args⟩ =
      .err ⟨"Handler \x27" ++ name ++ "\x27 not found", 404⟩ ∧
    breg.call_tool st ⟨name, args⟩ =
      .err ⟨"Tool \x27" ++ name ++ "\x27 not found", 404⟩ := by
  constructor
  · simp [ToolRegistry.call_tool, HandlerRegistry.call, h1]
  · simp [BuilderToolRegistry.call_tool, h2]

/-- C5 witness: the amended statement at the concrete name `nope` against the
concrete registries. -/
theorem c5_call_tool_not_found_witness :
    exampleTools.call_tool () ⟨"nope", some []⟩ =
      .err ⟨"Handler \x27nope\x27 not found", 404⟩ ∧
    emptyBuilderTools.call_tool () ⟨"nope", []⟩ =
      .err ⟨"Tool \x27nope\x27 not found", 404⟩ :=
  c5_call_tool_not_found exampleTools emptyBuilderTools () "nope" [] rfl rfl

/-- C6 counterexample: a request with `jsonrpc: "1.0"` and method
`initialize` is answered with the ordinary success result — no error at all,
in particular no code-400 version error with the message the claim quotes. -/
theorem c6_counterexample :
    (McpImpl.message_handler [] ⟨"1.0", some 1, "initialize", none⟩).error = none ∧
    (McpImpl.message_handler [] ⟨"1.0", some 1, "initialize", none⟩).result =
      some initializeResultJson ∧
    (McpImpl.message_handler [] ⟨"1.0", some 1, "initialize", none⟩).id = some 1 :=
  ⟨rfl, rfl, rfl⟩

/-- C6 amended: the message handler never inspects the `jsonrpc` field:
replacing it by any other string leaves the response unchanged, so no request
is ever rejected (or accepted) on version grounds. -/
theorem c6_version_field_ignored
    (handlers : List (String × (Json → JsonRpcResponse)))
    (v1 v2 : String) (id : Option Int) (m : String) (p : Option Json) :
    McpImpl.message_handler handlers ⟨v1, id, m, p⟩ =
      McpImpl.message_handler handlers ⟨v2, id, m, p⟩ := rfl

/-- C7 counterexample: the builder-layer adapter `unwrap`s the
deserialization result, so a failing argument object makes it panic instead
of returning the 400 error value. -/
theorem c7_counterexample :
    @builderHandlerRun Unit Unit Unit failingDeserialize (fun _ _ => .ok ()) () [] =
      .panic "called Result.unwrap on an Err value: Error: Failed to deserialize arguments: missing field message, code: 400" ∧
    @builderHandlerRun Unit Unit Unit failingDeserialize (fun _ _ => .ok ()) () [] ≠
      .err ⟨"Failed to deserialize arguments: missing field message", 400⟩ := by
  refine ⟨rfl, ?_⟩
  intro h
  exact Outcome.noConfusion h

/-- C7 amended: when deserialization of the argument object fails, the
adapter `WrappedAsyncFn::run` returns the 400 error whose message starts with
"Failed to deserialize arguments: " and never invokes the user handler (the
outcome is the same for any two handlers); the duplicate adapter in
builder/registry.rs instead panics on the same input. -/
theorem c7_deserialize_failure {State I O : Type}
    (deserialize : HandlerArgs → Except String I)
    (handler other : State → I → Outcome O) (st : State) (args : HandlerArgs)
    (e : String) (hfail : deserialize args = .error e) :
    WrappedAsyncFn.run deserialize handler st args =
      .err ⟨"Failed to deserialize arguments: " ++ e, 400⟩ ∧
    WrappedAsyncFn.run deserialize handler st args =
      WrappedAsyncFn.run deserialize other st args ∧
    builderHandlerRun deserialize handler st args =
      .panic ("called Result.unwrap on an Err value: Error: Failed to deserialize arguments: "
        ++ e ++ ", code: 400") := by
  refine ⟨?_, ?_, ?_⟩ <;> simp [WrappedAsyncFn.run, builderHandlerRun, hfail]

/-- C7 witness: the amended statement at a concrete failing deserializer. -/
theorem c7_deserialize_failure_witness :
    @WrappedAsyncFn.run Unit Unit Unit failingDeserialize (fun _ _ => .ok ()) () [] =
      .err ⟨"Failed to deserialize arguments: missing field message", 400⟩ :=
  (c7_deserialize_failure failingDeserialize (fun _ _ => .ok ()) (fun _ _ => .ok ())
    () [] "missing field message" rfl).1

/-- C8 counterexample: the `initialize` arm of the HTTP message handler
answers with a hardcoded result whose capability object has no `resources`
and no `prompts` member at all, and whose serverInfo name is the fixed string
`mcp-weather` — not the advertised capability set or the configured server
identity. -/
theorem c8_counterexample :
    (McpImpl.message_handler [] ⟨"2.0", some 1, "initialize", none⟩).result =
      some initializeResultJson ∧
    (initializeResultJson.getObjField "capabilities").bind
      (fun c => c.getObjField "resources") = none ∧
    (initializeResultJson.getObjField "capabilities").bind
      (fun c => c.getObjField "prompts") = none ∧
    (initializeResultJson.getObjField "serverInfo").bind
      (fun c => c.getObjField "name") = some (.str "mcp-weather") :=
  ⟨rfl, rfl, rfl, rfl⟩

/-- C8 amended: `BasicService::init` does advertise exactly the claimed
capabilities (prompts.listChanged=false, resources.subscribe=true,
resources.listChanged=false, tools.listChanged=false), the supported protocol
version, and the configured server name and version; the separate hardcoded
`initialize` arm of rpc.rs does not. -/
theorem c8_init_capabilities {State : Type} (svc : BasicService State) :
    ∃ res, svc.init = .ok res ∧
      res.capabilities.prompts = some ⟨some false⟩ ∧
      res.capabilities.resources = some ⟨some true, some false⟩ ∧
      res.capabilities.tools = some ⟨some false⟩ ∧
      res.capabilities.experimental = none ∧
      res.capabilities.logging = none ∧
      res.protocol_version = mcp_schema.LATEST_PROTOCOL_VERSION ∧
      res.instructions = svc.instructions ∧
      res.server_info = ⟨svc.name, svc.version⟩ :=
  ⟨_, rfl, rfl, rfl, rfl, rfl, rfl, rfl, rfl, rfl⟩

/-- C10: a set state is an unstated precondition of read_resource, call_tool,
get_prompt and subscribe: with no state they panic with "state must be set"
(for subscribe, once a notification handler is installed), and subscribe
panics with "service notification handler must be set" when no handler was
installed — in every case a panic, never an error value. -/
theorem c10_state_preconditions {State : Type} (svc : BasicService State)
    (tasks : SubscriptionTasks) (uri : String)
    (creq : mcp_schema.CallToolParams) (preq : mcp_schema.GetPromptParams)
    (hstate : svc.state = none) :
    svc.read_resource ⟨uri⟩ = .panic "state must be set" ∧
    svc.call_tool creq = .panic "state must be set" ∧
    svc.get_prompt preq = .panic "state must be set" ∧
    (svc.notification_handler.isSome = true →
      (svc.subscribe tasks ⟨uri⟩).1 = .panic "state must be set") ∧
    (svc.notification_handler = none →
      (svc.subscribe tasks ⟨uri⟩).1 = .panic "service notification handler must be set") := by
  obtain ⟨st, nm, ver, ins, tr, pr, rr, nh⟩ := svc
  simp only at hstate
  subst hstate
  cases nh <;>
    simp [BasicService.read_resource, BasicService.call_tool,
      BasicService.get_prompt, BasicService.subscribe]

/-- C10 witness: the preconditions at concrete services — a stateless service
with a handler panics on read_resource and subscribe with "state must be
set"; a fresh service with no handler panics on subscribe with "service
notification handler must be set". -/
theorem c10_state_preconditions_witness :
    statelessService.read_resource ⟨"memo"⟩ = .panic "state must be set" ∧
    (statelessService.subscribe SubscriptionTasks.empty ⟨"memo"⟩).1 =
      .panic "state must be set" ∧
    (bareService.subscribe SubscriptionTasks.empty ⟨"memo"⟩).1 =
      .panic "service notification handler must be set" :=
  ⟨(c10_state_preconditions statelessService SubscriptionTasks.empty "memo"
      ⟨"t", none⟩ ⟨"p", none⟩ rfl).1,
   (c10_state_preconditions statelessService SubscriptionTasks.empty "memo"
      ⟨"t", none⟩ ⟨"p", none⟩ rfl).2.2.2.1 rfl,
   (c10_state_preconditions bareService SubscriptionTasks.empty "memo"
      ⟨"t", none⟩ ⟨"p", none⟩ rfl).2.2.2.2 rfl⟩

/- ===== Round-trip lemmas for the wire codec ===== -/

/-- Decoding an encoded request as a request recovers it, as long as its
params payload is not the JSON null literal (serde maps both a missing and a
null `params` to `None`). -/
theorem decodeRequest_encodeRequest (r : JsonRpcRequest)
    (hp : r.params ≠ some .null) :
    decodeRequest (encodeRequest r) = some r := by
  obtain ⟨v, i, m, p⟩ := r
  cases i <;> rcases p with _ | val
  · rfl
  · cases val
    case null => exact absurd rfl hp
    all_goals rfl
  · rfl
  · cases val
    case null => exact absurd rfl hp
    all_goals rfl

/-- An encoded response has no `method` member, so the Request variant of the
untagged enum never captures it. -/
theorem decodeRequest_encodeResponse (r : JsonRpcResponse) :
    decodeRequest (encodeResponse r) = none := by
  obtain ⟨v, i, res, err⟩ := r
  cases i <;> cases res <;> cases err <;> rfl

/-- Decoding an encoded response as a response recovers it, as long as the
optional `result` and error `data` payloads are not the JSON null literal. -/
theorem decodeResponse_encodeResponse (r : JsonRpcResponse)
    (hres : r.result ≠ some .null)
    (hdata : ∀ e, r.error = some e → e.data ≠ some .null) :
    decodeResponse (encodeResponse r) = some r := by
  obtain ⟨v, i, res, err⟩ := r
  rcases err with _ | ⟨c, msg, d⟩
  · cases i <;> rcases res with _ | val
    · rfl
    · cases val
      case null => exact absurd rfl hres
      all_goals rfl
    · rfl
    · cases val
      case null => exact absurd rfl hres
      all_goals rfl
  · have hd : d ≠ some Json.null := hdata ⟨c, msg, d⟩ rfl
    cases i <;> rcases res with _ | val <;> rcases d with _ | dv
    all_goals first
      | rfl
      | (cases val <;> first | rfl | exact absurd rfl hres)
      | (cases dv <;> first | rfl | exact absurd rfl hd)
      | (cases val <;> cases dv <;>
          first | rfl | exact absurd rfl hres | exact absurd rfl hd)

/-- An encoded notification is captured by the Request variant: `id` is an
`Option` field, so its absence deserializes as `None` and the Request attempt
succeeds. -/
theorem decodeRequest_encodeNotification (n : JsonRpcNotification)
    (hp : n.params ≠ some .null) :
    decodeRequest (encodeNotification n) =
      some ⟨n.jsonrpc, none, n.method, n.params⟩ := by
  obtain ⟨v, m, p⟩ := n
  rcases p with _ | val
  · rfl
  · cases val
    case null => exact absurd rfl hp
    all_goals rfl

/-- C9 counterexample: the encoded `cancelled` notification decodes back as a
Request (with `id = None`), not as a Notification — the message variant is
not preserved by the round trip. -/
theorem c9_counterexample :
    decodeMessage (encodeMessage (.notification ⟨"2.0", "cancelled", none⟩)) =
      some (.request ⟨"2.0", none, "cancelled", none⟩) ∧
    some (JsonRpcMessage.request ⟨"2.0", none, "cancelled", none⟩) ≠
      some (.notification ⟨"2.0", "cancelled", none⟩) := by
  refine ⟨rfl, ?_⟩
  intro h
  exact JsonRpcMessage.noConfusion (Option.some.inj h)

/-- C9 amended: `decode(encode(m)) = m` holds for the Request and Response
variants (for messages whose optional JSON payloads are not the null
literal), but an encoded Notification decodes as the Request variant carrying
the same `jsonrpc`, `method` and `params` with `id = None`, because the
untagged enum tries Request first and the missing `id` deserializes as
`None` — so the variant is not preserved for notifications. -/
theorem c9_roundtrip :
    (∀ r : JsonRpcRequest, r.params ≠ some .null →
        decodeMessage (encodeMessage (.request r)) = some (.request r)) ∧
    (∀ r : JsonRpcResponse, r.result ≠ some .null →
        (∀ e, r.error = some e → e.data ≠ some .null) →
        decodeMessage (encodeMessage (.response r)) = some (.response r)) ∧
    (∀ n : JsonRpcNotification, n.params ≠ some .null →
        decodeMessage (encodeMessage (.notification n)) =
          some (.request ⟨n.jsonrpc, none, n.method, n.params⟩)) := by
  refine ⟨?_, ?_, ?_⟩
  · intro r hp
    simp [decodeMessage, encodeMessage, decodeRequest_encodeRequest r hp]
  · intro r hres hdata
    simp [decodeMessage, encodeMessage, decodeRequest_encodeResponse r,
      decodeResponse_encodeResponse r hres hdata]
  · intro n hp
    simp [decodeMessage, encodeMessage, decodeRequest_encodeNotification n hp]

/-- C9 witness: the amended round trip at a concrete request. -/
theorem c9_roundtrip_witness :
    decodeMessage (encodeMessage (.request ⟨"2.0", some 1, "ping", none⟩)) =
      some (.request ⟨"2.0", some 1, "ping", none⟩) :=
  c9_roundtrip.1 ⟨"2.0", some 1, "ping", none⟩ (fun h => Option.noConfusion h)

end McpVerify
